import Mathlib

/-!
Verification of the replexon log-reconciliation pipeline and backup trigger
state machine, shallowly embedded from the Python source
(app/services/log_parser.py and app/services/backup_runner.py).

Conventions of the embedding:
* Python datetimes become the explicit `PyDateTime` structure; naive datetime
  comparison is field-lexicographic, exactly as in CPython.
* The SQLAlchemy session is modelled by explicit lists of `BackupRun` rows.
  The session is created with autoflush disabled (app/database.py), so
  queries during an import see only committed rows; pending `db.add` objects
  become a separate pending list merged on commit.
* File and subprocess plumbing is abstracted away: functions take file
  contents (or line lists) instead of paths, and the grep pipeline of
  extract_stats_file becomes a pure two-stage line filter.
-/

namespace Replexon

/-! ## Calendar arithmetic (CPython datetime.date ordinal / weekday) -/

def isLeapYear (y : Nat) : Bool :=
  y % 4 == 0 && (y % 100 != 0 || y % 400 == 0)

def daysInMonth (y m : Nat) : Nat :=
  if m == 2 then (if isLeapYear y then 29 else 28)
  else if m == 4 || m == 6 || m == 9 || m == 11 then 30
  else 31

def daysBeforeMonth (y m : Nat) : Nat :=
  (List.range (m - 1)).foldl (fun a i => a + daysInMonth y (i + 1)) 0

def daysBeforeYear (y : Nat) : Nat :=
  let n := y - 1
  n * 365 + n / 4 - n / 100 + n / 400

def toOrdinal (y m d : Nat) : Nat :=
  daysBeforeYear y + daysBeforeMonth y m + d

/-- Weekday as in Python datetime.weekday: Monday = 0, ..., Sunday = 6. -/
def pyWeekday (y m d : Nat) : Nat :=
  (toOrdinal y m d + 6) % 7

/-- Naive Python datetime, second resolution (the sources never use
microseconds). -/
structure PyDateTime where
  year : Nat
  month : Nat
  day : Nat
  hour : Nat
  minute : Nat
  second : Nat
deriving Repr, DecidableEq

/-- Field-lexicographic order, as CPython compares naive datetimes. -/
def dtLe (a b : PyDateTime) : Bool :=
  if a.year = b.year then
    if a.month = b.month then
      if a.day = b.day then
        if a.hour = b.hour then
          if a.minute = b.minute then decide (a.second ≤ b.second)
          else decide (a.minute < b.minute)
        else decide (a.hour < b.hour)
      else decide (a.day < b.day)
    else decide (a.month < b.month)
  else decide (a.year < b.year)

def toPySeconds (t : PyDateTime) : Nat :=
  toOrdinal t.year t.month t.day * 86400 + t.hour * 3600 + t.minute * 60 + t.second

/-- Difference in whole seconds, as timedelta.total_seconds on naive
datetimes without microseconds. -/
def dtSub (a b : PyDateTime) : Int :=
  (toPySeconds a : Int) - (toPySeconds b : Int)

/-! ## Python string helpers (str.strip, str.splitlines, str.rsplit) -/

/-- Whitespace stripped by Python str.strip (ASCII part plus the common
Unicode members that matter for log text). -/
def isPyStripWs (c : Char) : Bool :=
  c == ' ' || c == '\t' || c == '\n' || c == '\r' || c == '\x0b' || c == '\x0c'
    || c == '\x1c' || c == '\x1d' || c == '\x1e' || c == '\x1f' || c == '\x85'

def dropLeadingWs : List Char → List Char
  | [] => []
  | c :: rest => if isPyStripWs c then dropLeadingWs rest else c :: rest

/-- Python str.strip on a character list. -/
def pyStrip (cs : List Char) : List Char :=
  ((dropLeadingWs ((dropLeadingWs cs).reverse)).reverse)

/-- Line-break characters recognised by Python str.splitlines. -/
def isLineBreak (c : Char) : Bool :=
  c == '\n' || c == '\r' || c == '\x0b' || c == '\x0c' || c == '\x1c'
    || c == '\x1d' || c == '\x1e' || c == '\x85' || c == '\u2028' || c == '\u2029'

def splitlinesAux : List Char → List Char → List (List Char)
  | [], acc => if acc.isEmpty then [] else [acc.reverse]
  | '\r' :: '\n' :: rest, acc => acc.reverse :: splitlinesAux rest []
  | c :: rest, acc =>
    if isLineBreak c then acc.reverse :: splitlinesAux rest []
    else splitlinesAux rest (c :: acc)

/-- Python str.splitlines. -/
def splitlines (cs : List Char) : List (List Char) :=
  splitlinesAux cs []

/-- Python line.rsplit of a colon, maximum one split: the pieces before and
after the last colon. Used only when the line is known to contain a colon. -/
def rsplitColon (cs : List Char) : List Char × List Char :=
  let r := cs.reverse
  ((r.dropWhile (fun c => !(c == ':'))).drop 1 |>.reverse,
   (r.takeWhile (fun c => !(c == ':'))).reverse)

/-! ## strptime embedding for the DATE_FORMATS list of log_parser.py

The source tries, in order:
  "%a %b %d %I:%M:%S %p %Z %Y", "%a %b %d %H:%M:%S %Z %Y",
  "%a %b %d %I:%M:%S %p %Y", "%Y-%m-%d %H:%M:%S", "%Y-%m-%d".
Each directive is embedded with the exact token regexes CPython _strptime
compiles (for example %d is 3[01]|[12]d|0[1-9]|[1-9]); a whitespace run in a
format string matches one or more whitespace characters; the whole input must
be consumed; the datetime constructor afterwards validates day-of-month and
rejects seconds above 59. %Z accepts the timezone names known on the deployed
host (an Eastern-time server, per the sample "Mon Feb 23 03:13:23 AM EST
2026" in the source): UTC, GMT, EST, EDT, case-insensitively. -/

/-- Whitespace class of a regex s-escape, as matched for blanks inside a
strptime format. -/
def isReSpace (c : Char) : Bool :=
  c == ' ' || c == '\t' || c == '\n' || c == '\r' || c == '\x0b' || c == '\x0c'
    || c == '\x1c' || c == '\x1d' || c == '\x1e' || c == '\x1f' || c == '\x85'

def digitVal (c : Char) : Nat := c.toNat - 48

/-- Match one or more whitespace characters (a blank in a strptime format). -/
def pWs1 : List Char → Option (List Char)
  | c :: rest => if isReSpace c then some (rest.dropWhile isReSpace) else none
  | [] => none

/-- Match a single literal character. -/
def pLit (l : Char) : List Char → Option (List Char)
  | c :: rest => if c == l then some rest else none
  | [] => none

/-- Match a fixed-length case-insensitive word from a table, returning its
associated value. -/
def pWord (table : List (List Char × Nat)) (cs : List Char) : Option (Nat × List Char) :=
  table.foldr
    (fun (w, v) acc =>
      match acc with
      | some r => some r
      | none =>
        let n := w.length
        if (cs.take n).map Char.toLower == w then some (v, cs.drop n) else none)
    none

/-- Abbreviated weekday names for the %a directive (value unused: strptime
does not check consistency with the parsed date). -/
def pDayName (cs : List Char) : Option (Nat × List Char) :=
  pWord [("mon".data, 0), ("tue".data, 1), ("wed".data, 2), ("thu".data, 3),
         ("fri".data, 4), ("sat".data, 5), ("sun".data, 6)] cs

/-- Abbreviated month names for the %b directive. -/
def pMonthName (cs : List Char) : Option (Nat × List Char) :=
  pWord [("jan".data, 1), ("feb".data, 2), ("mar".data, 3), ("apr".data, 4),
         ("may".data, 5), ("jun".data, 6), ("jul".data, 7), ("aug".data, 8),
         ("sep".data, 9), ("oct".data, 10), ("nov".data, 11), ("dec".data, 12)] cs

/-- The am and pm markers of the %p directive; returns true for pm. -/
def pAmPm (cs : List Char) : Option (Bool × List Char) :=
  match (cs.take 2).map Char.toLower with
  | ['a', 'm'] => some (false, cs.drop 2)
  | ['p', 'm'] => some (true, cs.drop 2)
  | _ => none

/-- Timezone names accepted by %Z on the deployed host (locale_time.timezone
holds utc, gmt and the tzname pair of the host zone). -/
def pTzName (cs : List Char) : Option (Nat × List Char) :=
  pWord [("utc".data, 0), ("gmt".data, 0), ("est".data, 0), ("edt".data, 0)] cs

/-- One or two digit numeric directive: a two-digit form is taken when its
value satisfies ok2, else a one-digit form when its value satisfies ok1.
Mirrors the alternation regexes of _strptime (two-digit alternatives first);
in every format of the source the continuation after a numeric directive
cannot start with a digit, so no further backtracking is needed. -/
def pNum2 (ok2 ok1 : Nat → Bool) : List Char → Option (Nat × List Char)
  | a :: b :: rest =>
    if a.isDigit && b.isDigit && ok2 (digitVal a * 10 + digitVal b) then
      some (digitVal a * 10 + digitVal b, rest)
    else if a.isDigit && ok1 (digitVal a) then some (digitVal a, b :: rest)
    else none
  | [a] => if a.isDigit && ok1 (digitVal a) then some (digitVal a, []) else none
  | [] => none

/-- Day of month, %d: 3[01]|[12]d|0[1-9]|[1-9]. -/
def pDay : List Char → Option (Nat × List Char) :=
  pNum2 (fun n => 1 ≤ n && n ≤ 31) (fun n => 1 ≤ n && n ≤ 9)

/-- Month number, %m: 1[0-2]|0[1-9]|[1-9]. -/
def pMonthNum : List Char → Option (Nat × List Char) :=
  pNum2 (fun n => 1 ≤ n && n ≤ 12) (fun n => 1 ≤ n && n ≤ 9)

/-- Hour on a 12-hour clock, %I: 1[0-2]|0[1-9]|[1-9]. -/
def pHour12 : List Char → Option (Nat × List Char) :=
  pNum2 (fun n => 1 ≤ n && n ≤ 12) (fun n => 1 ≤ n && n ≤ 9)

/-- Hour on a 24-hour clock, %H: 2[0-3]|[0-1]d|d. -/
def pHour24 : List Char → Option (Nat × List Char) :=
  pNum2 (fun n => n ≤ 23) (fun _ => true)

/-- Minute, %M: [0-5]d|d. -/
def pMinute : List Char → Option (Nat × List Char) :=
  pNum2 (fun n => n ≤ 59) (fun _ => true)

/-- Second, %S: 6[01]|[0-5]d|d (60 and 61 pass the regex and are rejected by
the datetime constructor afterwards). -/
def pSecond : List Char → Option (Nat × List Char) :=
  pNum2 (fun n => n ≤ 61) (fun _ => true)

/-- Year, %Y: exactly four digits. -/
def pYear4 : List Char → Option (Nat × List Char)
  | a :: b :: c :: d :: rest =>
    if a.isDigit && b.isDigit && c.isDigit && d.isDigit then
      some (digitVal a * 1000 + digitVal b * 100 + digitVal c * 10 + digitVal d, rest)
    else none
  | _ => none

/-- Convert a %I hour and the %p marker, as _strptime does. -/
def hourFrom12 (h : Nat) (pm : Bool) : Nat :=
  if pm then (if h = 12 then 12 else h + 12)
  else (if h = 12 then 0 else h)

/-- Validation performed by the datetime constructor after a successful
regex match: year at least 1, day within the month, second at most 59 (the
directive patterns already bound month, hour and minute). -/
def mkDT (y mo d h mi s : Nat) : Option PyDateTime :=
  if 1 ≤ y && 1 ≤ d && d ≤ daysInMonth y mo && s ≤ 59 then
    some ⟨y, mo, d, h, mi, s⟩
  else none

/-- Format "%a %b %d %I:%M:%S %p %Z %Y". -/
def fmtAbdIMSpZY (cs0 : List Char) : Option PyDateTime := do
  let (_, cs) ← pDayName cs0
  let cs ← pWs1 cs
  let (mo, cs) ← pMonthName cs
  let cs ← pWs1 cs
  let (d, cs) ← pDay cs
  let cs ← pWs1 cs
  let (h, cs) ← pHour12 cs
  let cs ← pLit ':' cs
  let (mi, cs) ← pMinute cs
  let cs ← pLit ':' cs
  let (s, cs) ← pSecond cs
  let cs ← pWs1 cs
  let (pm, cs) ← pAmPm cs
  let cs ← pWs1 cs
  let (_, cs) ← pTzName cs
  let cs ← pWs1 cs
  let (y, cs) ← pYear4 cs
  if cs.isEmpty then mkDT y mo d (hourFrom12 h pm) mi s else none

/-- Format "%a %b %d %H:%M:%S %Z %Y". -/
def fmtAbdHMSZY (cs0 : List Char) : Option PyDateTime := do
  let (_, cs) ← pDayName cs0
  let cs ← pWs1 cs
  let (mo, cs) ← pMonthName cs
  let cs ← pWs1 cs
  let (d, cs) ← pDay cs
  let cs ← pWs1 cs
  let (h, cs) ← pHour24 cs
  let cs ← pLit ':' cs
  let (mi, cs) ← pMinute cs
  let cs ← pLit ':' cs
  let (s, cs) ← pSecond cs
  let cs ← pWs1 cs
  let (_, cs) ← pTzName cs
  let cs ← pWs1 cs
  let (y, cs) ← pYear4 cs
  if cs.isEmpty then mkDT y mo d h mi s else none

/-- Format "%a %b %d %I:%M:%S %p %Y". -/
def fmtAbdIMSpY (cs0 : List Char) : Option PyDateTime := do
  let (_, cs) ← pDayName cs0
  let cs ← pWs1 cs
  let (mo, cs) ← pMonthName cs
  let cs ← pWs1 cs
  let (d, cs) ← pDay cs
  let cs ← pWs1 cs
  let (h, cs) ← pHour12 cs
  let cs ← pLit ':' cs
  let (mi, cs) ← pMinute cs
  let cs ← pLit ':' cs
  let (s, cs) ← pSecond cs
  let cs ← pWs1 cs
  let (pm, cs) ← pAmPm cs
  let cs ← pWs1 cs
  let (y, cs) ← pYear4 cs
  if cs.isEmpty then mkDT y mo d (hourFrom12 h pm) mi s else none

/-- Format "%Y-%m-%d %H:%M:%S". -/
def fmtYmdHMS (cs0 : List Char) : Option PyDateTime := do
  let (y, cs) ← pYear4 cs0
  let cs ← pLit '-' cs
  let (mo, cs) ← pMonthNum cs
  let cs ← pLit '-' cs
  let (d, cs) ← pDay cs
  let cs ← pWs1 cs
  let (h, cs) ← pHour24 cs
  let cs ← pLit ':' cs
  let (mi, cs) ← pMinute cs
  let cs ← pLit ':' cs
  let (s, cs) ← pSecond cs
  if cs.isEmpty then mkDT y mo d h mi s else none

/-- Format "%Y-%m-%d", also used directly by import_from_tracking_file. -/
def fmtYmd (cs0 : List Char) : Option PyDateTime := do
  let (y, cs) ← pYear4 cs0
  let cs ← pLit '-' cs
  let (mo, cs) ← pMonthNum cs
  let cs ← pLit '-' cs
  let (d, cs) ← pDay cs
  if cs.isEmpty then mkDT y mo d 0 0 0 else none

/-- Embedding of log_parser parse date: strip the input, then try the
DATE_FORMATS in order, returning the first success. -/
def parse_date (cs0 : List Char) : Option PyDateTime :=
  let cs := pyStrip cs0
  (fmtAbdIMSpZY cs).orElse fun _ =>
  (fmtAbdHMSZY cs).orElse fun _ =>
  (fmtAbdIMSpY cs).orElse fun _ =>
  (fmtYmdHMS cs).orElse fun _ =>
  fmtYmd cs

/-- Embedding of parse comma int: drop the thousands separators and read
the remaining digits (the regex groups feeding it always hold at least one
digit when the conversion succeeds in the source). -/
def parse_comma_int (cs : List Char) : Nat :=
  (cs.filter Char.isDigit).foldl (fun a c => a * 10 + digitVal c) 0

/-! ## Marker-pattern embedding

The patterns at the top of log_parser.py are literal-and-group regexes: a
fixed literal, optionally a greedy digit-or-comma or digit run, and a lazy
group closed by a literal. re.search semantics (leftmost position where the
whole anchored pattern can match) is implemented by trying an anchored
matcher at each position. In every pattern the character after a greedy
character-class run lies outside the class, so the greedy run is exactly the
maximal run and no backtracking into it is possible. -/

/-- Remainder of the input after a literal when the literal is a prefix. -/
def litPrefix : List Char → List Char → Option (List Char)
  | [], s => some s
  | _ :: _, [] => none
  | l :: ls, c :: cs => if c == l then litPrefix ls cs else none

/-- Leftmost-position regex search: try an anchored matcher at every suffix,
including the empty one. -/
def searchPos {α : Type} (tryAt : List Char → Option α) : List Char → Option α
  | [] => tryAt []
  | s@(_ :: rest) =>
    match tryAt s with
    | some a => some a
    | none => searchPos tryAt rest

/-- Lazy group (.+?) closed by a literal: the shortest nonempty prefix such
that the closing literal follows it. -/
def lazyGroup (post : List Char) : List Char → Option (List Char)
  | [] => none
  | c :: rest =>
    if (litPrefix post rest).isSome then some [c]
    else
      match lazyGroup post rest with
      | some g => some (c :: g)
      | none => none

def isDigitComma (c : Char) : Bool := c.isDigit || c == ','

/-- Embedding of BACKUP_START_RE search: group 1, the started date text. -/
def searchStart (line : List Char) : Option (List Char) :=
  searchPos (fun s =>
    (litPrefix "=== Plex Backup Started: ".data s).bind (lazyGroup " ===".data)) line

/-- Embedding of BACKUP_SUCCESS_RE search: group 1, the completed date text. -/
def searchSuccess (line : List Char) : Option (List Char) :=
  searchPos (fun s =>
    (litPrefix "=== Plex Backup Completed Successfully: ".data s).bind
      (lazyGroup " ===".data)) line

/-- Embedding of BACKUP_FAILED_RE search: group 2, the failed date text
(group 1, the digit run of the exit code, is not used by the enricher). -/
def searchFailed (line : List Char) : Option (List Char) :=
  searchPos (fun s =>
    match litPrefix "=== Plex Backup FAILED with code ".data s with
    | none => none
    | some s1 =>
      if (s1.takeWhile Char.isDigit).isEmpty then none
      else
        match litPrefix ": ".data (s1.dropWhile Char.isDigit) with
        | none => none
        | some s2 => lazyGroup " ===".data s2) line

/-- Embedding of SENT_BYTES_RE search: group 1, the sent byte count text. -/
def searchSent (line : List Char) : Option (List Char) :=
  searchPos (fun s =>
    match litPrefix "sent ".data s with
    | none => none
    | some s1 =>
      let g1 := s1.takeWhile isDigitComma
      if g1.isEmpty then none
      else
        match litPrefix " bytes".data (s1.dropWhile isDigitComma) with
        | none => none
        | some s2 =>
          match pWs1 s2 with
          | none => none
          | some s3 =>
            match litPrefix "received ".data s3 with
            | none => none
            | some s4 =>
              if (s4.takeWhile isDigitComma).isEmpty then none
              else
                match litPrefix " bytes".data (s4.dropWhile isDigitComma) with
                | none => none
                | some _ => some g1) line

/-- Embedding of TOTAL_SIZE_RE search: group 1, the total size text. -/
def searchTotal (line : List Char) : Option (List Char) :=
  searchPos (fun s =>
    match litPrefix "total size is ".data s with
    | none => none
    | some s1 =>
      let g := s1.takeWhile isDigitComma
      if g.isEmpty then none
      else
        match pWs1 (s1.dropWhile isDigitComma) with
        | none => none
        | some s2 =>
          match litPrefix "speedup is".data s2 with
          | none => none
          | some _ => some g) line

/-! ## The extraction filter of extract_stats_file

The source runs: grep -F for any of the fixed strings, piped into grep -E
for the precise alternation, redirected into the cache file. Both greps keep
whole lines and preserve order, so the pipeline is a line filter. -/

def containsLit (lit s : List Char) : Bool :=
  (searchPos (litPrefix lit) s).isSome

/-- After the first occurrence of a literal, the rest of the line. -/
def afterLit (lit s : List Char) : Option (List Char) :=
  searchPos (litPrefix lit) s

/-- Stage 1: grep -F -e for the three fixed strings. -/
def stage1 (s : List Char) : Bool :=
  containsLit "=== Plex Backup".data s || containsLit "total size is".data s
    || containsLit "sent ".data s

/-- Stage 2: the grep -E alternation. The banner alternative is the literal
followed by one of the three words; the two stats alternatives are ordered
literal occurrences connected by dot-star. -/
def stage2 (s : List Char) : Bool :=
  containsLit "=== Plex Backup Started".data s
    || containsLit "=== Plex Backup Completed".data s
    || containsLit "=== Plex Backup FAILED".data s
    || (match afterLit "sent ".data s with
        | some r1 =>
          (match afterLit " bytes".data r1 with
           | some r2 => containsLit "received".data r2
           | none => false)
        | none => false)
    || (match afterLit "total size is ".data s with
        | some r => containsLit " speedup".data r
        | none => false)

/-- Embedding of extract_stats_file, as the line filter the grep pipeline
computes over the transcript (path handling, timeout and the cache file on
disk are plumbing outside the model). -/
def extract_stats_lines (lines : List String) : List String :=
  (lines.filter (fun l => stage1 l.data)).filter (fun l => stage2 l.data)

/-! ## Data model: the BackupRun row (app/models/backup.py) -/

structure BackupRun where
  backup_type : String
  status : String
  started_at : PyDateTime
  triggered_by : String
  finished_at : Option PyDateTime := none
  duration_seconds : Option Int := none
  total_size_bytes : Option Nat := none
  transferred_bytes : Option Nat := none
  error_message : Option String := none
  raw_log : Option String := none
deriving Repr, DecidableEq

/-- Python truthiness of an optional integer column: None and 0 are falsy. -/
def truthyNat : Option Nat → Bool
  | none => false
  | some n => !(n == 0)

/-- Python truthiness of an optional signed column (duration_seconds). -/
def truthyInt : Option Int → Bool
  | none => false
  | some n => !(n == 0)

/-! ## TrackingFileImporter (import_from_tracking_file)

The session has autoflush disabled (app/database.py), so the dedup queries
inside the loop see only rows committed before the call; rows added by
db.add stay pending until the single commit at the end. The store is the
committed row list; the fold threads the insert count and the pending list. -/

/-- The dedup query: filter on started_at equality and backup_type equality,
first row or none. -/
def existsRun (store : List BackupRun) (st : PyDateTime) (ty : String) : Bool :=
  store.any fun r => decide (r.started_at = st) && decide (r.backup_type = ty)

/-- Row inserted for a tracking line: a cron daily_mirror at the parsed day,
time fixed to 03:00:00 by the replace call. -/
def mkDaily (started : PyDateTime) (status : String) : BackupRun :=
  { backup_type := "daily_mirror", status := status, started_at := started,
    triggered_by := "cron" }

/-- Companion snapshot row: success at 03:30 on the same day. -/
def mkSnap (started : PyDateTime) : BackupRun :=
  { backup_type := "snapshot", status := "success",
    started_at := { started with hour := 3, minute := 30 }, triggered_by := "cron" }

/-- Companion cleanup row: success at 04:00 on the same day. -/
def mkCleanup (started : PyDateTime) : BackupRun :=
  { backup_type := "cleanup", status := "success",
    started_at := { started with hour := 4, minute := 0 }, triggered_by := "cron" }

/-- Per-line parsing of the tracking file (lines 72 through 84 of
log_parser.py): strip, require a colon and nonempty text, rsplit on the last
colon, strptime the date part with format %Y-%m-%d, fix the time of day to
03:00:00, and map the result token to a status. Returns none when the line
is skipped. -/
def parse_tracking_line (line0 : List Char) : Option (PyDateTime × String) :=
  let line := pyStrip line0
  if line.isEmpty || !(line.any (fun c => c == ':')) then none
  else
    match fmtYmd (pyStrip (rsplitColon line).1) with
    | none => none
    | some d =>
      some ({ d with hour := 3, minute := 0, second := 0 },
            if pyStrip (rsplitColon line).2 == "success".data then "success"
            else "failure")

/-- One iteration of the import loop over a tracking line: dedup check on
(started_at, daily_mirror) against the committed rows, insert the daily row,
and on a Sunday success also the snapshot and cleanup rows behind their own
dedup checks. Note the snapshot dedup query filters on started_at itself
(03:00), exactly as the source does, while the snapshot row is inserted at
03:30. -/
def importLine (committed : List BackupRun) (acc : Nat × List BackupRun)
    (line : List Char) : Nat × List BackupRun :=
  match parse_tracking_line line with
  | none => acc
  | some (started, status) =>
    if existsRun committed started "daily_mirror" then acc
    else
      let acc1 : Nat × List BackupRun := (acc.1 + 1, acc.2 ++ [mkDaily started status])
      if pyWeekday started.year started.month started.day == 6
          && status == "success" then
        let acc2 : Nat × List BackupRun :=
          if existsRun committed started "snapshot" then acc1
          else (acc1.1 + 1, acc1.2 ++ [mkSnap started])
        if existsRun committed { started with hour := 4 } "cleanup" then acc2
        else (acc2.1 + 1, acc2.2 ++ [mkCleanup started])
      else acc1

/-- Embedding of import_from_tracking_file: strip and split the file text,
fold the import loop over the lines, and commit the pending rows when the
count is nonzero. Returns the count and the resulting committed store. -/
def import_from_tracking_file (committed : List BackupRun) (text : String) :
    Nat × List BackupRun :=
  let res := (splitlines (pyStrip text.data)).foldl (importLine committed) (0, [])
  (res.1, if res.1 == 0 then committed else committed ++ res.2)

/-! ## StatsEnricher (enrich_from_stats) -/

/-- The open accumulator dict of the scan loop; none stands for the empty
dict. A field is some when the corresponding key has been set. -/
structure StatsAccum where
  start : Option PyDateTime
  sent : Option Nat
  total_size : Option Nat
deriving Repr, DecidableEq

/-- A finished entry appended by a success or failure banner. -/
structure StatsEntry where
  start : Option PyDateTime
  sent : Option Nat
  total_size : Option Nat
  endAt : Option PyDateTime
  status : String
deriving Repr, DecidableEq

/-- One iteration of the scan loop of enrich_from_stats (lines 204 through
234): a start banner opens a fresh accumulator; with no open accumulator the
line is skipped; otherwise the sent and total-size matches update the
accumulator, a success banner closes and appends it, and the failure banner
check still runs afterwards on the (possibly just reset) accumulator, exactly
as the source's straight-line if chain does. -/
def scanLine (st : Option StatsAccum × List StatsEntry) (line : List Char) :
    Option StatsAccum × List StatsEntry :=
  match searchStart line with
  | some g => (some ⟨parse_date g, none, none⟩, st.2)
  | none =>
    match st.1 with
    | none => st
    | some cur0 =>
      let cur1 := match searchSent line with
        | some ds => { cur0 with sent := some (parse_comma_int ds) }
        | none => cur0
      let cur2 := match searchTotal line with
        | some ds => { cur1 with total_size := some (parse_comma_int ds) }
        | none => cur1
      let afterSuccess : Option StatsAccum × List StatsEntry :=
        match searchSuccess line with
        | some g =>
          (none, st.2 ++ [⟨cur2.start, cur2.sent, cur2.total_size, parse_date g, "success"⟩])
        | none => (some cur2, st.2)
      match searchFailed line with
      | some g2 =>
        let c := afterSuccess.1.getD ⟨none, none, none⟩
        (none, afterSuccess.2 ++ [⟨c.start, c.sent, c.total_size, parse_date g2, "failure"⟩])
      | none => afterSuccess

/-- The day-range store lookup of the enrichment loop: a daily_mirror row
whose started_at lies between the start instant with hour and minute zeroed
and the start instant with hour 23 and minute 59 (seconds keep the start
value, exactly as the replace calls do). -/
def dayMatch (start : PyDateTime) (r : BackupRun) : Bool :=
  r.backup_type == "daily_mirror"
    && dtLe { start with hour := 0, minute := 0 } r.started_at
    && dtLe r.started_at { start with hour := 23, minute := 59 }

/-- First index and row satisfying a predicate (query ... first with the
natural rowid order of the store list). -/
def findRunIdx (p : BackupRun → Bool) : List BackupRun → Option (Nat × BackupRun)
  | [] => none
  | r :: rs =>
    if p r then some (0, r)
    else (findRunIdx p rs).map (fun ir => (ir.1 + 1, ir.2))

/-- One iteration of the enrichment loop (lines 238 through 272): skip
entries without a start instant or without a matching row, then fill each
field only when the incoming value is truthy and the stored value is falsy,
counting the row as updated when any field changed. -/
def enrichEntry (acc : List BackupRun × Nat) (e : StatsEntry) :
    List BackupRun × Nat :=
  match e.start with
  | none => acc
  | some start =>
    match findRunIdx (dayMatch start) acc.1 with
    | none => acc
    | some (i, run) =>
      let step1 : BackupRun × Bool :=
        if truthyNat e.total_size && !(truthyNat run.total_size_bytes) then
          ({ run with total_size_bytes := e.total_size }, true)
        else (run, false)
      let step2 : BackupRun × Bool :=
        if truthyNat e.sent && !(truthyNat step1.1.transferred_bytes) then
          ({ step1.1 with transferred_bytes := e.sent }, true)
        else step1
      let step3 : BackupRun × Bool :=
        match e.endAt with
        | some endT =>
          if !(truthyInt step2.1.duration_seconds) then
            ({ step2.1 with duration_seconds := some (dtSub endT start),
                            finished_at := some endT }, true)
          else step2
        | none => step2
      (acc.1.set i step3.1, if step3.2 then acc.2 + 1 else acc.2)

/-- Embedding of enrich_from_stats: empty or whitespace-only cache text
returns zero; otherwise scan the lines into entries and fold the enrichment
loop over them. Returns the updated count and the resulting store. -/
def enrich_from_stats (store : List BackupRun) (text : String) :
    Nat × List BackupRun :=
  if (pyStrip text.data).isEmpty then (0, store)
  else
    let entries := ((splitlines text.data).foldl scanLine (none, [])).2
    let res := entries.foldl enrichEntry (store, 0)
    (res.2, res.1)

/-! ## BackupSupervisor (backup_runner.py)

The module globals are the process slot and the last trigger instant; they
become an explicit RunnerState. The wall clock (time.time), the record clock
(datetime.now), the configured cooldown, the script path existence check and
the outcome of subprocess.Popen are inputs of the environment. A ghost
spawnCount counts successful Popen calls. The trigger endpoint is an async
def handler and trigger_backup contains no await point, so on the single
event loop two concurrent trigger requests execute the function body one
after the other; concurrency claims are therefore settled over the
sequential composition of atomic trigger calls. -/

/-- An outstanding process handle; alive is true while poll() returns None. -/
structure Proc where
  alive : Bool
deriving Repr, DecidableEq

/-- The module-global state of backup_runner. -/
structure RunnerState where
  last_trigger_time : Int
  running : Option Proc
  spawnCount : Nat
deriving Repr, DecidableEq

/-- Truthiness of the slot check: a handle is held and has not exited. -/
def isLiveProc : Option Proc → Bool
  | some p => p.alive
  | none => false

/-- Embedding of can_trigger_backup at wall-clock instant now. -/
def can_trigger_backup (st : RunnerState) (now cooldown : Int) : Bool × String :=
  if isLiveProc st.running then (false, "A backup is already running")
  else
    let elapsed := now - st.last_trigger_time
    if elapsed < cooldown then
      (false, "Cooldown active. Try again in " ++ toString (cooldown - elapsed) ++ "s")
    else (true, "")

/-- Result of subprocess.Popen in the environment. -/
inductive SpawnResult where
  | ok (p : Proc)
  | oserror (msg : String)
deriving Repr, DecidableEq

/-- Return value of trigger_backup: the inserted record or an error string. -/
inductive TriggerResult where
  | record (r : BackupRun)
  | err (msg : String)
deriving Repr, DecidableEq

def TriggerResult.isErr : TriggerResult → Bool
  | .err _ => true
  | .record _ => false

/-- Embedding of trigger_backup: re-check can_trigger_backup, reject a
missing script before touching any state, insert and commit the running
manual record, then attempt the spawn. A successful spawn stores the handle
and the trigger instant; an OSError marks the just-inserted record failure
with the message and leaves the slot and the trigger instant untouched. -/
def trigger_backup (st : RunnerState) (store : List BackupRun)
    (now cooldown : Int) (nowDT : PyDateTime) (script_path : String)
    (script_exists : Bool) (spawn : SpawnResult) :
    TriggerResult × RunnerState × List BackupRun :=
  let check := can_trigger_backup st now cooldown
  if !check.1 then (.err check.2, st, store)
  else if !script_exists then
    (.err ("Backup script not found: " ++ script_path), st, store)
  else
    let run : BackupRun :=
      { backup_type := "manual", status := "running", started_at := nowDT,
        triggered_by := "manual" }
    match spawn with
    | .ok p =>
      (.record run,
       { st with running := some p, last_trigger_time := now,
                 spawnCount := st.spawnCount + 1 },
       store ++ [run])
    | .oserror msg =>
      (.err msg, st,
       store ++ [{ run with status := "failure", error_message := some msg,
                            finished_at := some nowDT }])

/-! ## Helper lemmas -/

theorem existsRun_eq_true_iff (store : List BackupRun) (st : PyDateTime) (ty : String) :
    existsRun store st ty = true ↔
      ∃ r ∈ store, r.started_at = st ∧ r.backup_type = ty := by
  simp [existsRun, List.any_eq_true]

theorem existsRun_eq_false_of_day (store : List BackupRun) (st : PyDateTime) (ty : String)
    (h : ∀ r ∈ store, ¬(r.started_at.year = st.year ∧ r.started_at.month = st.month
          ∧ r.started_at.day = st.day)) :
    existsRun store st ty = false := by
  cases hcase : existsRun store st ty
  · rfl
  · exfalso
    obtain ⟨r, hr, h1, _⟩ := (existsRun_eq_true_iff store st ty).mp hcase
    exact h r hr ⟨by rw [h1], by rw [h1], by rw [h1]⟩

theorem existsRun_append_left (l₁ l₂ : List BackupRun) (st : PyDateTime) (ty : String)
    (h : existsRun l₁ st ty = true) : existsRun (l₁ ++ l₂) st ty = true := by
  obtain ⟨r, hr, h1, h2⟩ := (existsRun_eq_true_iff l₁ st ty).mp h
  exact (existsRun_eq_true_iff _ st ty).mpr ⟨r, List.mem_append_left _ hr, h1, h2⟩

theorem existsRun_of_mem (l : List BackupRun) (st : PyDateTime) (ty : String)
    (r : BackupRun) (hm : r ∈ l) (h1 : r.started_at = st) (h2 : r.backup_type = ty) :
    existsRun l st ty = true :=
  (existsRun_eq_true_iff l st ty).mpr ⟨r, hm, h1, h2⟩

theorem existsRun_append_right (l₁ l₂ : List BackupRun) (st : PyDateTime) (ty : String)
    (h : existsRun l₂ st ty = true) : existsRun (l₁ ++ l₂) st ty = true := by
  obtain ⟨r, hr, h1, h2⟩ := (existsRun_eq_true_iff l₂ st ty).mp h
  exact (existsRun_eq_true_iff _ st ty).mpr ⟨r, List.mem_append_right _ hr, h1, h2⟩

theorem importLine_skip_none (c : List BackupRun) (acc : Nat × List BackupRun)
    (l : List Char) (hp : parse_tracking_line l = none) :
    importLine c acc l = acc := by
  simp [importLine, hp]

theorem importLine_skip_daily (c : List BackupRun) (acc : Nat × List BackupRun)
    (l : List Char) (started : PyDateTime) (status : String)
    (hp : parse_tracking_line l = some (started, status))
    (he : existsRun c started "daily_mirror" = true) :
    importLine c acc l = acc := by
  simp [importLine, hp, he]

theorem importLine_shape (c : List BackupRun) (acc : Nat × List BackupRun)
    (l : List Char) :
    ∃ t, importLine c acc l = (acc.1 + t.length, acc.2 ++ t) := by
  unfold importLine
  cases hp : parse_tracking_line l with
  | none => exact ⟨[], by simp⟩
  | some p =>
    obtain ⟨started, status⟩ := p
    dsimp only
    split
    · exact ⟨[], by simp⟩
    · split
      · split
        · split
          · exact ⟨[mkDaily started status], by simp⟩
          · exact ⟨[mkDaily started status, mkSnap started], by simp⟩
        · split
          · exact ⟨[mkDaily started status, mkCleanup started], by simp⟩
          · exact ⟨[mkDaily started status, mkSnap started, mkCleanup started], by simp⟩
      · exact ⟨[mkDaily started status], by simp⟩

theorem importLine_daily_mem (c : List BackupRun) (acc : Nat × List BackupRun)
    (l : List Char) (started : PyDateTime) (status : String)
    (hp : parse_tracking_line l = some (started, status))
    (he : existsRun c started "daily_mirror" = false) :
    mkDaily started status ∈ (importLine c acc l).2 := by
  unfold importLine
  rw [hp]
  dsimp only
  split
  · next h => simp [he] at h
  · split
    · split
      · split <;> simp
      · split <;> simp
    · simp

theorem importLine_sunday_success (c : List BackupRun) (acc : Nat × List BackupRun)
    (l : List Char) (started : PyDateTime)
    (hp : parse_tracking_line l = some (started, "success"))
    (hsun : pyWeekday started.year started.month started.day = 6)
    (e1 : existsRun c started "daily_mirror" = false)
    (e2 : existsRun c started "snapshot" = false)
    (e3 : existsRun c { started with hour := 4 } "cleanup" = false) :
    importLine c acc l =
      (acc.1 + 3, acc.2 ++ [mkDaily started "success", mkSnap started, mkCleanup started]) := by
  simp [importLine, hp, e1, e2, e3, hsun]

theorem importFold_shape (c : List BackupRun) (lines : List (List Char))
    (acc : Nat × List BackupRun) :
    ∃ t, lines.foldl (importLine c) acc = (acc.1 + t.length, acc.2 ++ t) := by
  induction lines generalizing acc with
  | nil => exact ⟨[], by simp⟩
  | cons a as ih =>
    obtain ⟨t1, h1⟩ := importLine_shape c acc a
    obtain ⟨t2, h2⟩ := ih (importLine c acc a)
    refine ⟨t1 ++ t2, ?_⟩
    rw [List.foldl_cons, h2, h1]
    simp [Nat.add_assoc]

theorem importFold_mem (c : List BackupRun) (lines : List (List Char))
    (acc : Nat × List BackupRun) (r : BackupRun) (hr : r ∈ acc.2) :
    r ∈ (lines.foldl (importLine c) acc).2 := by
  obtain ⟨t, ht⟩ := importFold_shape c lines acc
  rw [ht]
  exact List.mem_append_left _ hr

theorem importFold_daily (c : List BackupRun) (lines : List (List Char))
    (acc : Nat × List BackupRun) (l : List Char) (hl : l ∈ lines)
    (started : PyDateTime) (status : String)
    (hp : parse_tracking_line l = some (started, status)) :
    existsRun c started "daily_mirror" = true ∨
      mkDaily started status ∈ (lines.foldl (importLine c) acc).2 := by
  induction lines generalizing acc with
  | nil => cases hl
  | cons a as ih =>
    rcases List.mem_cons.mp hl with rfl | hl'
    · cases hc : existsRun c started "daily_mirror"
      · right
        rw [List.foldl_cons]
        exact importFold_mem c as _ _ (importLine_daily_mem c acc l started status hp hc)
      · left; rfl
    · exact ih (importLine c acc a) hl'

theorem importFold_skip_all (c : List BackupRun) (lines : List (List Char))
    (acc : Nat × List BackupRun)
    (h : ∀ l ∈ lines, ∀ started status, parse_tracking_line l = some (started, status) →
          existsRun c started "daily_mirror" = true) :
    lines.foldl (importLine c) acc = acc := by
  induction lines generalizing acc with
  | nil => rfl
  | cons a as ih =>
    rw [List.foldl_cons]
    have hstep : importLine c acc a = acc := by
      cases hp : parse_tracking_line a with
      | none => exact importLine_skip_none c acc a hp
      | some p =>
        exact importLine_skip_daily c acc a p.1 p.2 (by rw [hp])
          (h a (List.mem_cons_self a as) p.1 p.2 (by rw [hp]))
    rw [hstep]
    exact ih acc (fun l hl => h l (List.mem_cons_of_mem a hl))

theorem findRunIdx_getElem (p : BackupRun → Bool) (l : List BackupRun)
    (i : Nat) (r : BackupRun) (h : findRunIdx p l = some (i, r)) :
    l[i]? = some r := by
  induction l generalizing i with
  | nil => simp [findRunIdx] at h
  | cons a as ih =>
    rw [findRunIdx] at h
    by_cases hp : p a
    · rw [if_pos hp] at h
      cases h
      simp
    · rw [if_neg hp] at h
      cases hm : findRunIdx p as with
      | none => rw [hm] at h; cases h
      | some ir =>
        rw [hm] at h
        simp only [Option.map_some'] at h
        cases h
        simpa using ih ir.1 (by rw [hm])

theorem enrichEntry_total_preserved (e : StatsEntry) (acc : List BackupRun × Nat)
    (i : Nat) (r : BackupRun) (v : Nat)
    (hget : acc.1[i]? = some r) (hset : r.total_size_bytes = some v) (hv : v ≠ 0) :
    ∃ r', (enrichEntry acc e).1[i]? = some r' ∧ r'.total_size_bytes = some v := by
  unfold enrichEntry
  cases e.start with
  | none => exact ⟨r, hget, hset⟩
  | some start =>
    dsimp only
    match hf : findRunIdx (dayMatch start) acc.1 with
    | none => exact ⟨r, hget, hset⟩
    | some jr =>
      obtain ⟨j, run⟩ := jr
      dsimp only
      by_cases hij : j = i
      · subst hij
        have hrun : run = r := by
          have h2 := findRunIdx_getElem _ _ _ _ hf
          rw [hget] at h2
          cases h2
          rfl
        subst hrun
        have hguard : (truthyNat e.total_size && !(truthyNat run.total_size_bytes)) = false := by
          rw [hset]
          simp [truthyNat, hv]
        rw [hguard]
        simp only [Bool.false_eq_true, if_false]
        have hlt : j < acc.1.length := by
          by_contra hge
          rw [List.getElem?_eq_none (by omega)] at hget
          cases hget
        refine ⟨_, List.getElem?_set_eq_of_lt _ hlt, ?_⟩
        dsimp only
        repeat' split
        all_goals simp [hset]
      · exact ⟨r, by rw [List.getElem?_set_ne (by omega)]; exact hget, hset⟩

theorem enrichFold_total_preserved (entries : List StatsEntry)
    (acc : List BackupRun × Nat) (i : Nat) (r : BackupRun) (v : Nat)
    (hget : acc.1[i]? = some r) (hset : r.total_size_bytes = some v) (hv : v ≠ 0) :
    ∃ r', (entries.foldl enrichEntry acc).1[i]? = some r' ∧
      r'.total_size_bytes = some v := by
  induction entries generalizing acc r with
  | nil => exact ⟨r, hget, hset⟩
  | cons e es ih =>
    obtain ⟨r1, hg1, hs1⟩ := enrichEntry_total_preserved e acc i r v hget hset hv
    exact ih (enrichEntry acc e) r1 hg1 hs1

theorem trigger_ok_spawn (st : RunnerState) (store : List BackupRun)
    (now cooldown : Int) (dt : PyDateTime) (path : String) (p : Proc)
    (hidle : st.running = none) (hcool : cooldown ≤ now - st.last_trigger_time) :
    trigger_backup st store now cooldown dt path true (.ok p) =
      (.record { backup_type := "manual", status := "running", started_at := dt,
                 triggered_by := "manual" },
       { st with running := some p, last_trigger_time := now,
                 spawnCount := st.spawnCount + 1 },
       store ++ [{ backup_type := "manual", status := "running", started_at := dt,
                   triggered_by := "manual" }]) := by
  have hcan : can_trigger_backup st now cooldown = (true, "") := by
    simp only [can_trigger_backup, hidle, isLiveProc]
    rw [if_neg (by simp), if_neg (by omega)]
  simp [trigger_backup, hcan]

theorem trigger_err_spawn (st : RunnerState) (store : List BackupRun)
    (now cooldown : Int) (dt : PyDateTime) (path msg : String)
    (hidle : st.running = none) (hcool : cooldown ≤ now - st.last_trigger_time) :
    trigger_backup st store now cooldown dt path true (.oserror msg) =
      (.err msg, st,
       store ++ [{ backup_type := "manual", status := "failure", started_at := dt,
                   triggered_by := "manual", finished_at := some dt,
                   error_message := some msg }]) := by
  have hcan : can_trigger_backup st now cooldown = (true, "") := by
    simp only [can_trigger_backup, hidle, isLiveProc]
    rw [if_neg (by simp), if_neg (by omega)]
  simp [trigger_backup, hcan]

/-! ## Claim theorems -/

/-- Claim C1 (code bug): the import does insert a second snapshot record for
the same day. With a store holding the snapshot row of Sunday 2024-06-02 at
03:30 and no daily mirror row, importing the line 2024-06-02:success yields
two snapshot rows on that calendar day, because the snapshot dedup query
filters on started_at 03:00 while snapshot rows are inserted at 03:30. -/
theorem import_sunday_duplicate_snapshot :
    ((import_from_tracking_file
      [{ backup_type := "snapshot", status := "success",
         started_at := ⟨2024, 6, 2, 3, 30, 0⟩, triggered_by := "cron" }]
      "2024-06-02:success").2.filter
        (fun r => r.backup_type == "snapshot" && r.started_at.year == 2024
          && r.started_at.month == 6 && r.started_at.day == 2)).length = 2 := by
  rfl

/-- Claim C2: running import_from_tracking_file a second time on the same
text and the store produced by the first run inserts zero records and
returns 0, leaving the store unchanged. -/
theorem import_idempotent (committed : List BackupRun) (text : String) :
    (import_from_tracking_file (import_from_tracking_file committed text).2 text).1 = 0 ∧
    (import_from_tracking_file (import_from_tracking_file committed text).2 text).2 =
      (import_from_tracking_file committed text).2 := by
  set lines := splitlines (pyStrip text.data) with hlines
  obtain ⟨t, ht⟩ := importFold_shape committed lines (0, [])
  have hres : import_from_tracking_file committed text =
      ((lines.foldl (importLine committed) (0, [])).1,
       if (lines.foldl (importLine committed) (0, [])).1 == 0 then committed
       else committed ++ (lines.foldl (importLine committed) (0, [])).2) := rfl
  set s1 := (import_from_tracking_file committed text).2 with hs1
  have key : ∀ l ∈ lines, ∀ started status,
      parse_tracking_line l = some (started, status) →
      existsRun s1 started "daily_mirror" = true := by
    intro l hl started status hp
    rcases importFold_daily committed lines (0, []) l hl started status hp with hc | hm
    · rw [hs1, hres]
      dsimp only
      split
      · exact hc
      · exact existsRun_append_left _ _ _ _ hc
    · rw [ht] at hm
      simp only [List.nil_append] at hm
      rw [hs1, hres]
      dsimp only
      rw [ht]
      simp only [Nat.zero_add, List.nil_append]
      have ht0 : t.length ≠ 0 := by
        intro h0
        rw [List.length_eq_zero] at h0
        subst h0
        cases hm
      rw [if_neg (by simpa using ht0)]
      exact existsRun_append_right committed t started "daily_mirror"
        (existsRun_of_mem t started "daily_mirror" (mkDaily started status) hm rfl rfl)
  have h2 : lines.foldl (importLine s1) (0, []) = (0, []) :=
    importFold_skip_all s1 lines (0, []) key
  have hrun2 : import_from_tracking_file s1 text =
      ((lines.foldl (importLine s1) (0, [])).1,
       if (lines.foldl (importLine s1) (0, [])).1 == 0 then s1
       else s1 ++ (lines.foldl (importLine s1) (0, [])).2) := rfl
  rw [hrun2, h2]
  simp

/-- Claim C3: on a store holding no record dated 2024-06-02, importing the
single Sunday line 2024-06-02:success inserts exactly three records, a
daily mirror at 03:00, a snapshot at 03:30 and a cleanup at 04:00, all with
status success, and returns 3. -/
theorem import_sunday_success_inserts_three (store : List BackupRun)
    (h : ∀ r ∈ store, ¬(r.started_at.year = 2024 ∧ r.started_at.month = 6
          ∧ r.started_at.day = 2)) :
    import_from_tracking_file store "2024-06-02:success" =
      (3, store ++ [mkDaily ⟨2024, 6, 2, 3, 0, 0⟩ "success",
                    mkSnap ⟨2024, 6, 2, 3, 0, 0⟩,
                    mkCleanup ⟨2024, 6, 2, 3, 0, 0⟩]) := by
  have hstep := importLine_sunday_success store (0, []) ("2024-06-02:success".data)
    ⟨2024, 6, 2, 3, 0, 0⟩ rfl rfl
    (existsRun_eq_false_of_day store _ _ h)
    (existsRun_eq_false_of_day store _ _ h)
    (existsRun_eq_false_of_day store _ _ h)
  have hrun : import_from_tracking_file store "2024-06-02:success" =
      ((importLine store (0, []) ("2024-06-02:success".data)).1,
       if (importLine store (0, []) ("2024-06-02:success".data)).1 == 0 then store
       else store ++ (importLine store (0, []) ("2024-06-02:success".data)).2) := rfl
  rw [hrun, hstep]
  simp

theorem import_sunday_success_inserts_three_witness :
    import_from_tracking_file
      [{ backup_type := "manual", status := "success",
         started_at := ⟨2024, 6, 1, 12, 0, 0⟩, triggered_by := "manual" }]
      "2024-06-02:success" =
      (3, [{ backup_type := "manual", status := "success",
             started_at := ⟨2024, 6, 1, 12, 0, 0⟩, triggered_by := "manual" }] ++
          [mkDaily ⟨2024, 6, 2, 3, 0, 0⟩ "success",
           mkSnap ⟨2024, 6, 2, 3, 0, 0⟩, mkCleanup ⟨2024, 6, 2, 3, 0, 0⟩]) :=
  import_sunday_success_inserts_three _ (by decide)

/-- Claim C4: the four transcript lines of the round trip all survive
extraction, and enriching the resulting cache against a store whose first
daily mirror row in the day range of 2024-06-03 has its numeric fields
unset fills transferred bytes 1234, total size 50000000 and duration 720
seconds, updating exactly one record. -/
theorem extract_enrich_roundtrip (store : List BackupRun) (i : Nat) (r : BackupRun)
    (hfind : findRunIdx (dayMatch ⟨2024, 6, 3, 3, 0, 0⟩) store = some (i, r))
    (h1 : r.total_size_bytes = none) (h2 : r.transferred_bytes = none)
    (h3 : r.duration_seconds = none) :
    extract_stats_lines
      ["=== Plex Backup Started: Mon Jun 3 03:00:00 AM EDT 2024 ===",
       "sent 1,234 bytes received 10,000,000 bytes",
       "total size is 50,000,000 speedup is 5.0",
       "=== Plex Backup Completed Successfully: Mon Jun 3 03:12:00 AM EDT 2024 ==="] =
      ["=== Plex Backup Started: Mon Jun 3 03:00:00 AM EDT 2024 ===",
       "sent 1,234 bytes received 10,000,000 bytes",
       "total size is 50,000,000 speedup is 5.0",
       "=== Plex Backup Completed Successfully: Mon Jun 3 03:12:00 AM EDT 2024 ==="] ∧
    enrich_from_stats store
      ("=== Plex Backup Started: Mon Jun 3 03:00:00 AM EDT 2024 ===\nsent 1,234 bytes received 10,000,000 bytes\ntotal size is 50,000,000 speedup is 5.0\n=== Plex Backup Completed Successfully: Mon Jun 3 03:12:00 AM EDT 2024 ===") =
      (1, store.set i { r with total_size_bytes := some 50000000,
                               transferred_bytes := some 1234,
                               duration_seconds := some 720,
                               finished_at := some ⟨2024, 6, 3, 3, 12, 0⟩ }) := by
  refine ⟨rfl, ?_⟩
  have hrfl : enrich_from_stats store
      ("=== Plex Backup Started: Mon Jun 3 03:00:00 AM EDT 2024 ===\nsent 1,234 bytes received 10,000,000 bytes\ntotal size is 50,000,000 speedup is 5.0\n=== Plex Backup Completed Successfully: Mon Jun 3 03:12:00 AM EDT 2024 ===") =
      ((enrichEntry (store, 0)
          ⟨some ⟨2024, 6, 3, 3, 0, 0⟩, some 1234, some 50000000,
           some ⟨2024, 6, 3, 3, 12, 0⟩, "success"⟩).2,
       (enrichEntry (store, 0)
          ⟨some ⟨2024, 6, 3, 3, 0, 0⟩, some 1234, some 50000000,
           some ⟨2024, 6, 3, 3, 12, 0⟩, "success"⟩).1) := rfl
  rw [hrfl]
  unfold enrichEntry
  dsimp only
  rw [hfind]
  dsimp only
  have hdur : dtSub ⟨2024, 6, 3, 3, 12, 0⟩ ⟨2024, 6, 3, 3, 0, 0⟩ = (720 : Int) := rfl
  simp [truthyNat, truthyInt, h1, h2, h3, hdur]

theorem extract_enrich_roundtrip_witness :
    extract_stats_lines
      ["=== Plex Backup Started: Mon Jun 3 03:00:00 AM EDT 2024 ===",
       "sent 1,234 bytes received 10,000,000 bytes",
       "total size is 50,000,000 speedup is 5.0",
       "=== Plex Backup Completed Successfully: Mon Jun 3 03:12:00 AM EDT 2024 ==="] =
      ["=== Plex Backup Started: Mon Jun 3 03:00:00 AM EDT 2024 ===",
       "sent 1,234 bytes received 10,000,000 bytes",
       "total size is 50,000,000 speedup is 5.0",
       "=== Plex Backup Completed Successfully: Mon Jun 3 03:12:00 AM EDT 2024 ==="] ∧
    enrich_from_stats
      [{ backup_type := "daily_mirror", status := "success",
         started_at := ⟨2024, 6, 3, 3, 0, 0⟩, triggered_by := "cron" }]
      ("=== Plex Backup Started: Mon Jun 3 03:00:00 AM EDT 2024 ===\nsent 1,234 bytes received 10,000,000 bytes\ntotal size is 50,000,000 speedup is 5.0\n=== Plex Backup Completed Successfully: Mon Jun 3 03:12:00 AM EDT 2024 ===") =
      (1, [{ backup_type := "daily_mirror", status := "success",
             started_at := ⟨2024, 6, 3, 3, 0, 0⟩, triggered_by := "cron" }].set 0
            { backup_type := "daily_mirror", status := "success",
              started_at := ⟨2024, 6, 3, 3, 0, 0⟩, triggered_by := "cron",
              finished_at := some ⟨2024, 6, 3, 3, 12, 0⟩,
              duration_seconds := some 720,
              total_size_bytes := some 50000000,
              transferred_bytes := some 1234 }) :=
  extract_enrich_roundtrip
    [{ backup_type := "daily_mirror", status := "success",
       started_at := ⟨2024, 6, 3, 3, 0, 0⟩, triggered_by := "cron" }] 0
    { backup_type := "daily_mirror", status := "success",
      started_at := ⟨2024, 6, 3, 3, 0, 0⟩, triggered_by := "cron" }
    rfl rfl rfl rfl

/-- Claim C5 counterexample: a daily mirror row whose total_size_bytes is
already set to 0 is overwritten by the enricher, because the fill-once guard
tests Python truthiness, under which 0 counts as unset. -/
theorem enrich_overwrites_zero_total :
    ([{ backup_type := "daily_mirror", status := "success",
        started_at := ⟨2024, 6, 3, 3, 0, 0⟩, triggered_by := "cron",
        total_size_bytes := some 0 }] : List BackupRun).map
          (fun r => r.total_size_bytes) = [some 0] ∧
    ((enrich_from_stats
      [{ backup_type := "daily_mirror", status := "success",
         started_at := ⟨2024, 6, 3, 3, 0, 0⟩, triggered_by := "cron",
         total_size_bytes := some 0 }]
      ("=== Plex Backup Started: 2024-06-03 03:00:00 ===\ntotal size is 7 speedup is 1.0\n=== Plex Backup Completed Successfully: 2024-06-03 03:05:00 ===")).2.map
        (fun r => r.total_size_bytes)) = [some 7] :=
  ⟨rfl, rfl⟩

/-- Claim C5 as amended: a daily mirror record whose total_size_bytes field
is already set to a nonzero value keeps that value across any run of
enrich_from_stats, whatever the cache text contains. -/
theorem enrich_fill_once_nonzero (store : List BackupRun) (text : String) (i : Nat)
    (r : BackupRun) (v : Nat)
    (hget : store[i]? = some r) (hset : r.total_size_bytes = some v) (hv : v ≠ 0) :
    ∃ r', (enrich_from_stats store text).2[i]? = some r' ∧
      r'.total_size_bytes = some v := by
  unfold enrich_from_stats
  split
  · exact ⟨r, hget, hset⟩
  · exact enrichFold_total_preserved _ (store, 0) i r v hget hset hv

theorem enrich_fill_once_nonzero_witness :
    ∃ r', (enrich_from_stats
      [{ backup_type := "daily_mirror", status := "success",
         started_at := ⟨2024, 6, 3, 3, 0, 0⟩, triggered_by := "cron",
         total_size_bytes := some 5 }]
      ("=== Plex Backup Started: 2024-06-03 03:00:00 ===\ntotal size is 7 speedup is 1.0\n=== Plex Backup Completed Successfully: 2024-06-03 03:05:00 ===")).2[0]? =
        some r' ∧ r'.total_size_bytes = some 5 :=
  enrich_fill_once_nonzero _ _ 0 _ 5 rfl rfl (by decide)

/-- Claim C6: with the slot idle, a trigger attempted when the elapsed time
since the last successful trigger equals the cooldown minus one second is
rejected, and one attempted at or past the cooldown is accepted. -/
theorem cooldown_boundary (st : RunnerState) (now cooldown : Int)
    (hidle : st.running = none) :
    (now - st.last_trigger_time = cooldown - 1 →
      (can_trigger_backup st now cooldown).1 = false) ∧
    (cooldown ≤ now - st.last_trigger_time →
      (can_trigger_backup st now cooldown).1 = true) := by
  constructor
  · intro h
    simp only [can_trigger_backup, hidle, isLiveProc]
    rw [if_neg (by simp), if_pos (by omega)]
  · intro h
    simp only [can_trigger_backup, hidle, isLiveProc]
    rw [if_neg (by simp), if_neg (by omega)]

theorem cooldown_boundary_witness :
    (can_trigger_backup ⟨0, none, 0⟩ 299 300).1 = false ∧
    (can_trigger_backup ⟨0, none, 0⟩ 300 300).1 = true :=
  ⟨(cooldown_boundary ⟨0, none, 0⟩ 299 300 rfl).1 (by decide),
   (cooldown_boundary ⟨0, none, 0⟩ 300 300 rfl).2 (by decide)⟩

/-- Claim C7: when the configured script path does not exist, trigger_backup
returns an error string and mutates nothing: the runner state, including the
slot and the cooldown timestamp, and the store are returned unchanged. -/
theorem trigger_missing_script_no_mutation (st : RunnerState) (store : List BackupRun)
    (now cooldown : Int) (nowDT : PyDateTime) (path : String) (spawn : SpawnResult) :
    (trigger_backup st store now cooldown nowDT path false spawn).1.isErr = true ∧
    (trigger_backup st store now cooldown nowDT path false spawn).2.1 = st ∧
    (trigger_backup st store now cooldown nowDT path false spawn).2.2 = store := by
  simp only [trigger_backup]
  split
  · exact ⟨rfl, rfl, rfl⟩
  · simp [TriggerResult.isErr]

/-- Claim C8: two trigger calls from an idle, off-cooldown state, executed
in sequence as the awaitless async handler serialises them on the event
loop, spawn exactly one process, insert exactly one running manual record,
and hand the second caller the already-running rejection. -/
theorem trigger_mutual_exclusion (st : RunnerState) (store : List BackupRun)
    (now1 now2 cooldown : Int) (dt1 dt2 : PyDateTime) (path : String)
    (p : Proc) (spawn2 : SpawnResult)
    (hidle : st.running = none)
    (hcool : cooldown ≤ now1 - st.last_trigger_time)
    (halive : p.alive = true) :
    (trigger_backup
        (trigger_backup st store now1 cooldown dt1 path true (.ok p)).2.1
        (trigger_backup st store now1 cooldown dt1 path true (.ok p)).2.2
        now2 cooldown dt2 path true spawn2).1 = .err "A backup is already running" ∧
    (trigger_backup
        (trigger_backup st store now1 cooldown dt1 path true (.ok p)).2.1
        (trigger_backup st store now1 cooldown dt1 path true (.ok p)).2.2
        now2 cooldown dt2 path true spawn2).2.2 =
      store ++ [{ backup_type := "manual", status := "running", started_at := dt1,
                  triggered_by := "manual" }] ∧
    (trigger_backup
        (trigger_backup st store now1 cooldown dt1 path true (.ok p)).2.1
        (trigger_backup st store now1 cooldown dt1 path true (.ok p)).2.2
        now2 cooldown dt2 path true spawn2).2.1.spawnCount = st.spawnCount + 1 := by
  rw [trigger_ok_spawn st store now1 cooldown dt1 path p hidle hcool]
  have hcan2 : can_trigger_backup
      { st with running := some p, last_trigger_time := now1,
                spawnCount := st.spawnCount + 1 } now2 cooldown =
      (false, "A backup is already running") := by
    simp [can_trigger_backup, isLiveProc, halive]
  simp [trigger_backup, hcan2]

theorem trigger_mutual_exclusion_witness :
    (trigger_backup
        (trigger_backup ⟨0, none, 0⟩ [] 300 300 ⟨2024, 6, 3, 12, 0, 0⟩ "s" true
          (.ok ⟨true⟩)).2.1
        (trigger_backup ⟨0, none, 0⟩ [] 300 300 ⟨2024, 6, 3, 12, 0, 0⟩ "s" true
          (.ok ⟨true⟩)).2.2
        301 300 ⟨2024, 6, 3, 12, 0, 1⟩ "s" true (.ok ⟨true⟩)).1 =
      .err "A backup is already running" ∧
    (trigger_backup
        (trigger_backup ⟨0, none, 0⟩ [] 300 300 ⟨2024, 6, 3, 12, 0, 0⟩ "s" true
          (.ok ⟨true⟩)).2.1
        (trigger_backup ⟨0, none, 0⟩ [] 300 300 ⟨2024, 6, 3, 12, 0, 0⟩ "s" true
          (.ok ⟨true⟩)).2.2
        301 300 ⟨2024, 6, 3, 12, 0, 1⟩ "s" true (.ok ⟨true⟩)).2.2 =
      [] ++ [{ backup_type := "manual", status := "running",
               started_at := ⟨2024, 6, 3, 12, 0, 0⟩, triggered_by := "manual" }] ∧
    (trigger_backup
        (trigger_backup ⟨0, none, 0⟩ [] 300 300 ⟨2024, 6, 3, 12, 0, 0⟩ "s" true
          (.ok ⟨true⟩)).2.1
        (trigger_backup ⟨0, none, 0⟩ [] 300 300 ⟨2024, 6, 3, 12, 0, 0⟩ "s" true
          (.ok ⟨true⟩)).2.2
        301 300 ⟨2024, 6, 3, 12, 0, 1⟩ "s" true (.ok ⟨true⟩)).2.1.spawnCount = 0 + 1 :=
  trigger_mutual_exclusion ⟨0, none, 0⟩ [] 300 301 300 ⟨2024, 6, 3, 12, 0, 0⟩
    ⟨2024, 6, 3, 12, 0, 1⟩ "s" ⟨true⟩ (.ok ⟨true⟩) rfl (by decide) rfl

/-- Claim C9: a tracking line whose daily mirror record already exists in
the store contributes nothing to the import: the loop iteration returns the
accumulator unchanged, so missing snapshot or cleanup companions are never
backfilled. -/
theorem import_existing_daily_skips_line (committed : List BackupRun)
    (acc : Nat × List BackupRun) (line : List Char)
    (started : PyDateTime) (status : String)
    (hp : parse_tracking_line line = some (started, status))
    (he : existsRun committed started "daily_mirror" = true) :
    importLine committed acc line = acc := by
  simp [importLine, hp, he]

theorem import_existing_daily_skips_line_witness :
    importLine
      [mkDaily ⟨2024, 6, 2, 3, 0, 0⟩ "success"]
      (0, []) ("2024-06-02:success".data) = (0, []) :=
  import_existing_daily_skips_line _ _ _ ⟨2024, 6, 2, 3, 0, 0⟩ "success" rfl (by decide)

/-- Claim C10: when the spawn fails with an OSError, trigger_backup returns
the error, the runner state, including the cooldown timestamp, is unchanged,
the inserted record is marked failure carrying the message, a later retry
passes the cooldown gate, and the cooldown timestamp is set to the trigger
instant only on a successful spawn. -/
theorem trigger_spawn_failure_frame (st : RunnerState) (store : List BackupRun)
    (now now2 cooldown : Int) (dt : PyDateTime) (path msg : String) (q : Proc)
    (hidle : st.running = none)
    (hcool : cooldown ≤ now - st.last_trigger_time)
    (hlater : now ≤ now2) :
    (trigger_backup st store now cooldown dt path true (.oserror msg)).1 = .err msg ∧
    (trigger_backup st store now cooldown dt path true (.oserror msg)).2.1 = st ∧
    (trigger_backup st store now cooldown dt path true (.oserror msg)).2.2 =
      store ++ [{ backup_type := "manual", status := "failure", started_at := dt,
                  triggered_by := "manual", finished_at := some dt,
                  error_message := some msg }] ∧
    (can_trigger_backup
        (trigger_backup st store now cooldown dt path true (.oserror msg)).2.1
        now2 cooldown).1 = true ∧
    (trigger_backup st store now cooldown dt path true (.ok q)).2.1.last_trigger_time
      = now := by
  rw [trigger_err_spawn st store now cooldown dt path msg hidle hcool,
      trigger_ok_spawn st store now cooldown dt path q hidle hcool]
  refine ⟨rfl, rfl, rfl, ?_, rfl⟩
  simp only [can_trigger_backup, hidle, isLiveProc]
  rw [if_neg (by simp), if_neg (by omega)]

theorem trigger_spawn_failure_frame_witness :
    (trigger_backup ⟨0, none, 0⟩ [] 300 300 ⟨2024, 6, 3, 12, 0, 0⟩ "s" true
      (.oserror "boom")).1 = .err "boom" ∧
    (trigger_backup ⟨0, none, 0⟩ [] 300 300 ⟨2024, 6, 3, 12, 0, 0⟩ "s" true
      (.oserror "boom")).2.1 = ⟨0, none, 0⟩ ∧
    (trigger_backup ⟨0, none, 0⟩ [] 300 300 ⟨2024, 6, 3, 12, 0, 0⟩ "s" true
      (.oserror "boom")).2.2 =
      [] ++ [{ backup_type := "manual", status := "failure",
               started_at := ⟨2024, 6, 3, 12, 0, 0⟩, triggered_by := "manual",
               finished_at := some ⟨2024, 6, 3, 12, 0, 0⟩,
               error_message := some "boom" }] ∧
    (can_trigger_backup
        (trigger_backup ⟨0, none, 0⟩ [] 300 300 ⟨2024, 6, 3, 12, 0, 0⟩ "s" true
          (.oserror "boom")).2.1 300 300).1 = true ∧
    (trigger_backup ⟨0, none, 0⟩ [] 300 300 ⟨2024, 6, 3, 12, 0, 0⟩ "s" true
      (.ok ⟨true⟩)).2.1.last_trigger_time = 300 :=
  trigger_spawn_failure_frame ⟨0, none, 0⟩ [] 300 300 300 ⟨2024, 6, 3, 12, 0, 0⟩
    "s" "boom" ⟨true⟩ rfl (by decide) (by decide)

end Replexon
